import Mathlib

/-!
# Verification of `src/utils.js`

The module creates an HTTP client bound to a base URL and registers a request
interceptor made of two callbacks:

* the success callback reads `localStorage.getItem("token")` and, when the
  value is truthy, assigns `config.headers.Authorization`;
* the failure callback returns `Promise.reject(error)`.

JavaScript objects are embedded as association lists of own properties,
`localStorage` as explicit state threaded through every callback, a thrown
exception as `Except.error`, and a settled promise as a value of `Promise`.
-/

namespace Utils

/-! ## JavaScript objects with string-valued own properties -/

/-- An object whose own properties hold strings, in insertion order. -/
abbrev Obj := List (String × String)

/-- Property read `o[k]`: `none` stands for `undefined`. -/
def getProp (o : Obj) (k : String) : Option String :=
  match o with
  | [] => none
  | (k', v') :: rest => if k' = k then some v' else getProp rest k

/-- Property assignment `o[k] = v`: an existing own property keeps its place
and takes the new value, a new property is appended. -/
def setProp (o : Obj) (k v : String) : Obj :=
  match o with
  | [] => [(k, v)]
  | (k', v') :: rest => if k' = k then (k, v) :: rest else (k', v') :: setProp rest k v

/-! ## Local storage -/

/-- The browser's `localStorage`: string keys mapped to string values. -/
structure Storage where
  items : Obj
  deriving DecidableEq, Repr

/-- Method `Storage.getItem(key)`: the stored string, or `null` (here `none`). -/
def Storage.getItem (s : Storage) (key : String) : Option String :=
  getProp s.items key

/-- Method `Storage.setItem(key, value)`; this module never calls it, it only
serves to describe the storage states the external login flow produces. -/
def Storage.setItem (s : Storage) (key value : String) : Storage :=
  { items := setProp s.items key value }

/-- The storage with no key at all. -/
def Storage.empty : Storage := { items := [] }

/-! ## Values, exceptions, promises -/

/-- Exceptions the callbacks can raise. -/
inductive JsError where
  | TypeError (message : String)
  deriving DecidableEq, Repr

/-- A settled promise. -/
inductive Promise (ε α : Type) where
  | fulfilled (value : α)
  | rejected (reason : ε)
  deriving DecidableEq, Repr

/-- Static method `Promise.reject(reason)`. -/
def Promise.reject {ε α : Type} (reason : ε) : Promise ε α :=
  Promise.rejected reason

/-- Abstract operation `ToBoolean` on the result of `getItem` (a string or
`null`): `null` and the empty string are falsy, every other string is truthy. -/
def toBoolean (v : Option String) : Bool :=
  match v with
  | none => false
  | some t => t != ""

/-- Abstract operation `ToString` on the result of `getItem`, as applied by a
template literal. -/
def toStr (v : Option String) : String :=
  match v with
  | none => "null"
  | some t => t

/-! ## Request configuration -/

/-- The request configuration handed to a request interceptor. `headers` is
`none` when the property is `undefined`. -/
structure Config where
  url : String
  method : String
  baseURL : String
  data : Option String
  headers : Option Obj
  extra : Obj
  deriving DecidableEq, Repr

/-- Read of the header `k` of a configuration. -/
def Config.header (c : Config) (k : String) : Option String :=
  match c.headers with
  | none => none
  | some h => getProp h k

/-! ## The module -/

/-- Expression `localStorage.getItem(key)` as a step on the storage state. -/
def localStorage_getItem (key : String) (localStorage : Storage) :
    Option String × Storage :=
  (localStorage.getItem key, localStorage)

/-- Statement `config.headers.Authorization = value` (strict mode): assigning
a property of `undefined` throws a `TypeError`. -/
def assignAuthorization (config : Config) (value : String) : Except JsError Config :=
  match config.headers with
  | none => Except.error (JsError.TypeError "Cannot set properties of undefined")
  | some h => Except.ok { config with headers := some (setProp h "Authorization" value) }

/-- Success callback of `authAxios.interceptors.request.use` (lines 10-16). -/
def requestSuccess (config : Config) (localStorage : Storage) :
    Except JsError Config × Storage :=
  let (token, localStorage) := localStorage_getItem "token" localStorage
  if toBoolean token then
    (assignAuthorization config ("Token " ++ toStr token), localStorage)
  else
    (Except.ok config, localStorage)

/-- Failure callback of `authAxios.interceptors.request.use` (lines 17-19). -/
def requestFailure {ε : Type} (error : ε) (localStorage : Storage) :
    Promise ε Config × Storage :=
  (Promise.reject error, localStorage)

/-- Options object passed to `axios.create` (lines 4-6); the constant
`endpoint` of `./constants` is a parameter. -/
structure CreateOptions where
  baseURL : String
  deriving DecidableEq, Repr

/-- Argument of `axios.create` in the definition of `authAxios`. -/
def authAxiosOptions (endpoint : String) : CreateOptions :=
  { baseURL := endpoint }

/-! ## Facts about property reads and assignments -/

theorem getProp_setProp_same (o : Obj) (k v : String) :
    getProp (setProp o k v) k = some v := by
  induction o with
  | nil => simp [setProp, getProp]
  | cons p rest ih =>
    obtain ⟨k', v'⟩ := p
    by_cases hk : k' = k
    · simp [setProp, getProp, hk]
    · simp [setProp, getProp, hk, ih]

theorem getProp_setProp_other (o : Obj) (k v j : String) (hj : j ≠ k) :
    getProp (setProp o k v) j = getProp o j := by
  induction o with
  | nil =>
    have : ¬ k = j := fun h => hj h.symm
    simp [setProp, getProp, this]
  | cons p rest ih =>
    obtain ⟨k', v'⟩ := p
    by_cases hk : k' = k
    · have h1 : ¬ k = j := fun h => hj h.symm
      simp [setProp, getProp, hk, h1]
    · by_cases hkj : k' = j
      · subst hkj
        simp [setProp, getProp, hk]
      · simp [setProp, getProp, hk, hkj, ih]

theorem setProp_setProp_same (o : Obj) (k v w : String) :
    setProp (setProp o k v) k w = setProp o k w := by
  induction o with
  | nil => simp [setProp]
  | cons p rest ih =>
    obtain ⟨k', v'⟩ := p
    by_cases hk : k' = k
    · simp [setProp, hk]
    · simp [setProp, hk, ih]

theorem toBoolean_some_iff (t : String) : toBoolean (some t) = true ↔ t ≠ "" := by
  simp [toBoolean]

/-- The success callback never writes the storage. -/
theorem requestSuccess_storage (config : Config) (s : Storage) :
    (requestSuccess config s).2 = s := by
  unfold requestSuccess localStorage_getItem
  dsimp only
  split <;> rfl

/-- Result of the success callback when the stored token is truthy. -/
theorem requestSuccess_truthy (config : Config) (s : Storage) (t : String)
    (ht : s.getItem "token" = some t) (hne : t ≠ "") :
    (requestSuccess config s).1 = assignAuthorization config ("Token " ++ t) := by
  unfold requestSuccess localStorage_getItem
  simp [ht, toBoolean, toStr, hne]

/-- Result of the success callback when the stored token is falsy. -/
theorem requestSuccess_falsy (config : Config) (s : Storage)
    (ht : toBoolean (s.getItem "token") = false) :
    (requestSuccess config s).1 = Except.ok config := by
  unfold requestSuccess localStorage_getItem
  simp [ht]

/-- Assignment of the header succeeds on a configuration with a header mapping. -/
theorem assignAuthorization_ok (config : Config) (h : Obj) (value : String)
    (hc : config.headers = some h) :
    assignAuthorization config value =
      Except.ok { config with headers := some (setProp h "Authorization" value) } := by
  unfold assignAuthorization
  rw [hc]

/-- Assignment of the header throws on a configuration without header mapping. -/
theorem assignAuthorization_error (config : Config) (value : String)
    (hc : config.headers = none) :
    ∃ e, assignAuthorization config value = Except.error e := by
  unfold assignAuthorization
  rw [hc]
  exact ⟨_, rfl⟩

/-- The stored token is either truthy (a non-empty string) or falsy. -/
theorem token_cases (s : Storage) :
    (∃ t, s.getItem "token" = some t ∧ t ≠ "") ∨ toBoolean (s.getItem "token") = false := by
  cases ht : s.getItem "token" with
  | none => right; rfl
  | some t =>
    by_cases hne : t = ""
    · right; simp [toBoolean, hne]
    · left; exact ⟨t, rfl, hne⟩

/-! ## Sample inputs -/

/-- A request configuration with a header mapping and no `Authorization`. -/
def sampleConfig : Config :=
  { url := "/articles", method := "get", baseURL := "http://localhost:8000/api",
    data := none, headers := some [("Accept", "application/json")], extra := [("timeout", "0")] }

/-- A request configuration that already carries an `Authorization` header. -/
def sampleConfigAuth : Config :=
  { url := "/user", method := "put", baseURL := "http://localhost:8000/api",
    data := some "payload",
    headers := some [("Authorization", "Token old"), ("Accept", "application/json")],
    extra := [] }

/-- Storage after a login stored the token `abc123`. -/
def storageAbc : Storage := Storage.empty.setItem "token" "abc123"

/-- Storage with the same token and one more key. -/
def storageAbcLang : Storage := (Storage.empty.setItem "lang" "fr").setItem "token" "abc123"

/-- Storage holding the empty string under `token`. -/
def storageEmptyToken : Storage := Storage.empty.setItem "token" ""

/-- Storage holding a key other than `token`. -/
def storageNoToken : Storage := Storage.empty.setItem "lang" "fr"

/-! ## The callbacks on the sample inputs -/

theorem eval_fresh_header : (requestSuccess sampleConfig storageAbc).1 =
    Except.ok { sampleConfig with
      headers := some [("Accept", "application/json"), ("Authorization", "Token abc123")] } := by
  rfl

theorem eval_overwritten_header : (requestSuccess sampleConfigAuth storageAbc).1 =
    Except.ok { sampleConfigAuth with
      headers := some [("Authorization", "Token abc123"), ("Accept", "application/json")] } := by
  rfl

theorem eval_empty_token :
    (requestSuccess sampleConfig storageEmptyToken).1 = Except.ok sampleConfig := by
  rfl

theorem eval_no_token :
    (requestSuccess sampleConfig storageNoToken).1 = Except.ok sampleConfig := by
  rfl

theorem eval_undefined_headers :
    ∃ e, (requestSuccess { sampleConfig with headers := none } storageAbc).1
      = Except.error e :=
  ⟨_, rfl⟩

/-! ## Token injection -/

/-- Claim C1, as the code has it: for every request configuration with a header
mapping `h` (also one that already carries `Authorization`) and every storage
state, a non-empty string `T` stored under `token` makes the success callback
return the configuration whose header mapping is `h` with `Authorization`
assigned `"Token " ++ T`, so that reading `Authorization` gives `"Token " ++ T`;
and when the stored value is absent or the empty string the callback returns the
configuration it was given, no header assigned. -/
theorem authorization_iff_nonempty_token (c : Config) (h : Obj) (s : Storage)
    (hc : c.headers = some h) :
    (∀ T : String, s.getItem "token" = some T → T ≠ "" →
      ∃ c', (requestSuccess c s).1 = Except.ok c' ∧
        c'.headers = some (setProp h "Authorization" ("Token " ++ T)) ∧
        c'.header "Authorization" = some ("Token " ++ T)) ∧
    ((s.getItem "token" = none ∨ s.getItem "token" = some "") →
      (requestSuccess c s).1 = Except.ok c) := by
  constructor
  · intro T hT hne
    refine ⟨{ c with headers := some (setProp h "Authorization" ("Token " ++ T)) }, ?_, rfl, ?_⟩
    · rw [requestSuccess_truthy c s T hT hne, assignAuthorization_ok c h _ hc]
    · simp only [Config.header]
      exact getProp_setProp_same h "Authorization" ("Token " ++ T)
  · intro hT
    apply requestSuccess_falsy
    rcases hT with hT | hT <;> rw [hT] <;> rfl

/-- Claim C1 on the sample inputs: the token `abc123` gives the header
`Token abc123`, on a configuration that already carried `Authorization`. -/
theorem authorization_iff_nonempty_token_witness :
    sampleConfigAuth.headers
        = some [("Authorization", "Token old"), ("Accept", "application/json")] ∧
      storageAbc.getItem "token" = some "abc123" ∧
      ∃ c', (requestSuccess sampleConfigAuth storageAbc).1 = Except.ok c' ∧
        c'.headers = some (setProp [("Authorization", "Token old"), ("Accept", "application/json")]
          "Authorization" ("Token " ++ "abc123")) ∧
        c'.header "Authorization" = some ("Token " ++ "abc123") :=
  ⟨rfl, rfl,
    (authorization_iff_nonempty_token sampleConfigAuth _ storageAbc rfl).1
      "abc123" rfl (by decide)⟩

/-- Claim C1 as written fails: with the empty string stored under `token` the
returned configuration does not carry `Authorization` equal to `"Token " ++ T`. -/
theorem authorization_for_every_string_fails :
    ¬ (∀ (c : Config) (h : Obj) (s : Storage) (T : String),
        c.headers = some h → s.getItem "token" = some T →
        ∃ c', (requestSuccess c s).1 = Except.ok c' ∧
          c'.header "Authorization" = some ("Token " ++ T)) := by
  intro H
  obtain ⟨c', h1, h2⟩ := H sampleConfig _ storageEmptyToken "" rfl rfl
  have h3 : (requestSuccess sampleConfig storageEmptyToken).1 = Except.ok sampleConfig := rfl
  rw [h3] at h1
  injection h1 with h1
  subst h1
  revert h2
  decide

/-- Claim C2: when `getItem("token")` is `null` the success callback returns the
configuration it was given, so the header mapping is the input's and a request
without `Authorization` still has none. -/
theorem no_token_headers_unchanged (c : Config) (s : Storage)
    (hT : s.getItem "token" = none) :
    ∃ c', (requestSuccess c s).1 = Except.ok c' ∧ c' = c ∧ c'.headers = c.headers ∧
      (c.header "Authorization" = none → c'.header "Authorization" = none) := by
  refine ⟨c, ?_, rfl, rfl, fun h => h⟩
  apply requestSuccess_falsy
  rw [hT]
  rfl

/-- Claim C2 on the sample inputs. -/
theorem no_token_headers_unchanged_witness :
    storageNoToken.getItem "token" = none ∧
    ∃ c', (requestSuccess sampleConfig storageNoToken).1 = Except.ok c' ∧ c' = sampleConfig ∧
      c'.headers = sampleConfig.headers ∧
      (sampleConfig.header "Authorization" = none → c'.header "Authorization" = none) :=
  ⟨rfl, no_token_headers_unchanged sampleConfig storageNoToken rfl⟩

/-- Claim C3: the failure callback yields a rejected promise whose reason is the
error it was given, and never a fulfilled one. -/
theorem failure_rejects_same_error {ε : Type} (E : ε) (s : Storage) :
    (requestFailure E s).1 = Promise.rejected E ∧
      ∀ v : Config, (requestFailure E s).1 ≠ Promise.fulfilled v := by
  refine ⟨rfl, ?_⟩
  intro v hv
  simp [requestFailure, Promise.reject] at hv

/-! ## Frame conditions -/

/-- Result of the success callback on a configuration with a header mapping:
either the input itself, or the input with `Authorization` assigned. -/
theorem requestSuccess_shape (c : Config) (h : Obj) (s : Storage)
    (hc : c.headers = some h) :
    (requestSuccess c s).1 = Except.ok c ∨
      ∃ v, (requestSuccess c s).1 =
        Except.ok { c with headers := some (setProp h "Authorization" v) } := by
  rcases token_cases s with ⟨t, ht, hne⟩ | hf
  · right
    exact ⟨"Token " ++ t, by rw [requestSuccess_truthy c s t ht hne, assignAuthorization_ok c h _ hc]⟩
  · left
    exact requestSuccess_falsy c s hf

/-- Claim C4: on every request configuration with a header mapping and in every
storage state the success callback returns a configuration whose fields other
than `headers` are the input's and whose header entries other than
`Authorization` read as in the input. -/
theorem only_authorization_changes (c : Config) (h : Obj) (s : Storage)
    (hc : c.headers = some h) :
    ∃ c', (requestSuccess c s).1 = Except.ok c' ∧
      c'.url = c.url ∧ c'.method = c.method ∧ c'.baseURL = c.baseURL ∧
      c'.data = c.data ∧ c'.extra = c.extra ∧
      ∀ k : String, k ≠ "Authorization" → c'.header k = c.header k := by
  rcases requestSuccess_shape c h s hc with h0 | ⟨v, hv⟩
  · exact ⟨c, h0, rfl, rfl, rfl, rfl, rfl, fun _ _ => rfl⟩
  · refine ⟨_, hv, rfl, rfl, rfl, rfl, rfl, ?_⟩
    intro k hk
    simp only [Config.header, hc]
    exact getProp_setProp_other h "Authorization" v k hk

/-- Claim C4 on the sample inputs. -/
theorem only_authorization_changes_witness :
    sampleConfigAuth.headers
        = some [("Authorization", "Token old"), ("Accept", "application/json")] ∧
    ∃ c', (requestSuccess sampleConfigAuth storageAbc).1 = Except.ok c' ∧
      c'.url = sampleConfigAuth.url ∧ c'.method = sampleConfigAuth.method ∧
      c'.baseURL = sampleConfigAuth.baseURL ∧
      c'.data = sampleConfigAuth.data ∧ c'.extra = sampleConfigAuth.extra ∧
      ∀ k : String, k ≠ "Authorization" → c'.header k = sampleConfigAuth.header k :=
  ⟨rfl, only_authorization_changes sampleConfigAuth _ storageAbc rfl⟩

/-- Claim C5: with the storage as explicit state, both callbacks hand back the
storage state they were given, whatever the configuration, the error and the
state. -/
theorem storage_read_only {ε : Type} (c : Config) (E : ε) (s : Storage) :
    (requestSuccess c s).2 = s ∧ (requestFailure E s).2 = s :=
  ⟨requestSuccess_storage c s, rfl⟩

/-- Claim C6: two storage states that agree on the key `token` give the same
result of the success callback. -/
theorem depends_only_on_token (c : Config) (s₁ s₂ : Storage)
    (hs : s₁.getItem "token" = s₂.getItem "token") :
    (requestSuccess c s₁).1 = (requestSuccess c s₂).1 := by
  unfold requestSuccess localStorage_getItem
  simp only [hs]
  split <;> rfl

/-- Claim C6 on the sample inputs: the two states differ on the key `lang`. -/
theorem depends_only_on_token_witness :
    storageAbc.getItem "token" = storageAbcLang.getItem "token" ∧
    storageAbc.getItem "lang" ≠ storageAbcLang.getItem "lang" ∧
    (requestSuccess sampleConfig storageAbc).1 = (requestSuccess sampleConfig storageAbcLang).1 :=
  ⟨rfl, by decide, depends_only_on_token sampleConfig storageAbc storageAbcLang rfl⟩

/-! ## Error conditions -/

/-- Claim C7: on every request configuration with a header mapping and in every
storage state the success callback returns a configuration and raises nothing. -/
theorem success_never_throws (c : Config) (h : Obj) (s : Storage)
    (hc : c.headers = some h) :
    (∃ c', (requestSuccess c s).1 = Except.ok c') ∧
      ∀ e, (requestSuccess c s).1 ≠ Except.error e := by
  rcases requestSuccess_shape c h s hc with h0 | ⟨v, hv⟩
  · exact ⟨⟨_, h0⟩, fun e he => by rw [h0] at he; cases he⟩
  · exact ⟨⟨_, hv⟩, fun e he => by rw [hv] at he; cases he⟩

/-- Claim C7 on the sample inputs. -/
theorem success_never_throws_witness :
    sampleConfig.headers = some [("Accept", "application/json")] ∧
    (∃ c', (requestSuccess sampleConfig storageAbc).1 = Except.ok c') ∧
      ∀ e, (requestSuccess sampleConfig storageAbc).1 ≠ Except.error e :=
  ⟨rfl, success_never_throws sampleConfig _ storageAbc rfl⟩

/-! ## Truthiness of the token and repeated application -/

/-- Claim C9: with the empty string stored under `token` the success callback
returns the configuration it was given, header mapping unchanged, and the
returned `Authorization` is `"Token "` only if the input already had it so. -/
theorem empty_token_like_absent (c : Config) (s : Storage)
    (hT : s.getItem "token" = some "") :
    ∃ c', (requestSuccess c s).1 = Except.ok c' ∧ c' = c ∧ c'.headers = c.headers ∧
      (c.header "Authorization" ≠ some "Token " → c'.header "Authorization" ≠ some "Token ") := by
  refine ⟨c, ?_, rfl, rfl, fun h => h⟩
  apply requestSuccess_falsy
  rw [hT]
  rfl

/-- Claim C9 on the sample inputs. -/
theorem empty_token_like_absent_witness :
    storageEmptyToken.getItem "token" = some "" ∧
    ∃ c', (requestSuccess sampleConfig storageEmptyToken).1 = Except.ok c' ∧
      c' = sampleConfig ∧ c'.headers = sampleConfig.headers ∧
      (sampleConfig.header "Authorization" ≠ some "Token " →
        c'.header "Authorization" ≠ some "Token ") :=
  ⟨rfl, empty_token_like_absent sampleConfig storageEmptyToken rfl⟩

/-- Claim C10: under a fixed storage state, on every request configuration with
a header mapping the success callback returns a configuration on which a second
application, run in the storage state the first one left, returns that same
configuration. -/
theorem success_idempotent (c : Config) (h : Obj) (s : Storage)
    (hc : c.headers = some h) :
    ∃ c', (requestSuccess c s).1 = Except.ok c' ∧
      (requestSuccess c' (requestSuccess c s).2).1 = Except.ok c' := by
  rw [requestSuccess_storage]
  rcases token_cases s with ⟨t, ht, hne⟩ | hf
  · refine ⟨{ c with headers := some (setProp h "Authorization" ("Token " ++ t)) }, ?_, ?_⟩
    · rw [requestSuccess_truthy c s t ht hne, assignAuthorization_ok c h _ hc]
    · rw [requestSuccess_truthy _ s t ht hne, assignAuthorization_ok _ _ _ rfl]
      simp only [setProp_setProp_same]
  · exact ⟨c, requestSuccess_falsy c s hf, requestSuccess_falsy c s hf⟩

/-- Claim C10 on the sample inputs. -/
theorem success_idempotent_witness :
    sampleConfigAuth.headers
        = some [("Authorization", "Token old"), ("Accept", "application/json")] ∧
    ∃ c', (requestSuccess sampleConfigAuth storageAbc).1 = Except.ok c' ∧
      (requestSuccess c' (requestSuccess sampleConfigAuth storageAbc).2).1 = Except.ok c' :=
  ⟨rfl, success_idempotent sampleConfigAuth _ storageAbc rfl⟩

/-! ## Client construction -/

/-- The options handed to `axios.create` carry the constant `endpoint` as is. -/
theorem authAxiosOptions_baseURL (endpoint : String) :
    (authAxiosOptions endpoint).baseURL = endpoint :=
  rfl

end Utils
